import Mathlib

/-!
Shallow embedding of the message-intake pipeline of `backend/server.py`
(mental-health chatbot backend): crisis detection, sentiment labelling,
conversational-context assembly, the chat endpoint's response policy, and
the sentiment-trend aggregation. External collaborators (the VADER scorer,
the document store, the generation service) are passed in as explicit
values or functions; everything the repository itself computes is
translated directly from the Python source.
-/

namespace Server

/-! ### Python string primitives -/

/-- Python `\w` for the ASCII texts handled here: letters, digits, underscore. -/
def pyIsWord (c : Char) : Bool := c.isAlphanum || c == '_'

/-- Python `\s` and the default `str.strip` class for ASCII: space, tab,
newline, carriage return, vertical tab, form feed. -/
def pyIsSpace (c : Char) : Bool :=
  c == ' ' || c == '\t' || c == '\n' || c == '\r' || c == '\x0b' || c == '\x0c'

/-- Python `str.lower` restricted to the ASCII range, applied charwise. -/
def pyLower (cs : List Char) : List Char := cs.map Char.toLower

/-- Helper for substring search: does `needle` occur as a prefix of `hay`? -/
def startsWithList : List Char → List Char → Bool
  | [], _ => true
  | _ :: _, [] => false
  | a :: as, b :: bs => a == b && startsWithList as bs

/-- Python substring containment `needle in hay` (contiguous occurrence). -/
def substrInList (needle : List Char) : List Char → Bool
  | [] => startsWithList needle []
  | c :: t => startsWithList needle (c :: t) || substrInList needle t

/-- Python `str.strip()` over the ASCII whitespace class. -/
def pyStrip (s : String) : String :=
  ⟨((s.data.dropWhile pyIsSpace).reverse.dropWhile pyIsSpace).reverse⟩

/-! ### Regex model for the four crisis patterns

Each pattern in `detect_crisis` has the shape `\bw1\s+w2\s+...\s+wk\b`
where every `wi` is a run of word characters.  `matchWordsFrom ws cs`
decides whether such a pattern (given as its word list `ws`) matches at
the very start of `cs`, including the trailing `\b`; the leading `\b` is
handled by the scanner `reSearchAux`, which tracks whether the previous
character was a non-word character (or the start of the string), exactly
as `re.search` scans positions left to right.  Because each `\s+` is
followed by a word character, greedy whitespace consumption needs no
backtracking. -/

/-- Match `w1\s+w2...\s+wk\b` at the start of the character list. -/
def matchWordsFrom : List (List Char) → List Char → Bool
  | [], [] => true
  | [], c :: _ => !pyIsWord c
  | [w], cs => startsWithList w cs && matchWordsFrom [] (cs.drop w.length)
  | w :: ws, cs =>
      startsWithList w cs &&
        (let rest := cs.drop w.length
         !(rest.takeWhile pyIsSpace).isEmpty && matchWordsFrom ws (rest.dropWhile pyIsSpace))

/-- Scan every position, carrying the `\b` information for the position
at hand: `atB` is true iff the previous character was a non-word
character or the position is the start of the string. -/
def reSearchAux (ws : List (List Char)) : List Char → Bool → Bool
  | [], atB => atB && matchWordsFrom ws []
  | c :: rest, atB =>
      (atB && matchWordsFrom ws (c :: rest)) || reSearchAux ws rest (!pyIsWord c)

/-- Python `re.search` for a pattern `\bw1\s+...\s+wk\b` on a text. -/
def reSearch (ws : List (List Char)) (cs : List Char) : Bool :=
  reSearchAux ws cs true

/-! ### Crisis detection (`CRISIS_KEYWORDS`, `CRISIS_PHRASES`, `detect_crisis`) -/

/-- The fixed keyword list of `server.py`. -/
def CRISIS_KEYWORDS : List String :=
  ["suicide", "kill myself", "end my life", "want to die", "harm myself",
   "self harm", "cut myself", "overdose", "not worth living", "better off dead",
   "hopeless", "can\x27t go on", "give up", "end it all", "hurt myself"]

/-- The fixed phrase list of `server.py`. -/
def CRISIS_PHRASES : List String :=
  ["i want to die", "i\x27m going to kill myself", "life isn\x27t worth living",
   "i can\x27t take it anymore", "nobody would miss me", "i\x27m done with life"]

/-- The four regex patterns of `detect_crisis`, each given as its word list:
`\bi\s+want\s+to\s+die\b`, `\bkill\s+myself\b`, `\bcommit\s+suicide\b`,
`\bend\s+my\s+life\b`. -/
def crisis_patterns : List (List String) :=
  [["i", "want", "to", "die"],
   ["kill", "myself"],
   ["commit", "suicide"],
   ["end", "my", "life"]]

/-- `detect_crisis` from `server.py`: lowercase the text, then test the
keywords by substring containment, then the phrases by substring
containment, then the four word-boundary regex patterns. -/
def detect_crisis (text : String) : Bool :=
  let text_lower := pyLower text.data
  CRISIS_KEYWORDS.any (fun keyword => substrInList keyword.data text_lower) ||
  CRISIS_PHRASES.any (fun phrase => substrInList phrase.data text_lower) ||
  crisis_patterns.any (fun pat => reSearch (pat.map String.data) text_lower)

/-! ### Sentiment analysis (`analyze_sentiment`)

The raw polarity scores come from the third-party VADER library; the
repository's own logic starts where those scores are turned into a label
and an emotional state.  The scores are therefore an explicit input. -/

/-- The four fields of `SentimentIntensityAnalyzer.polarity_scores`. -/
structure PolarityScores where
  compound : ℚ
  pos : ℚ
  neg : ℚ
  neu : ℚ
deriving DecidableEq

/-- The dictionary returned by `analyze_sentiment`. -/
structure SentimentResult where
  compound : ℚ
  positive : ℚ
  negative : ℚ
  neutral : ℚ
  label : String
  emotional_state : String
deriving DecidableEq

/-- `analyze_sentiment` from `server.py`, with the VADER scores passed in. -/
def analyze_sentiment (scores : PolarityScores) : SentimentResult :=
  let compound := scores.compound
  let label :=
    if compound ≥ 0.05 then "positive"
    else if compound ≤ -0.05 then "negative"
    else "neutral"
  let emotional_state :=
    if compound ≤ -0.5 then "very_negative"
    else if compound ≤ -0.2 then "negative"
    else if compound ≥ 0.5 then "very_positive"
    else if compound ≥ 0.2 then "positive"
    else "neutral"
  { compound := compound, positive := scores.pos, negative := scores.neg,
    neutral := scores.neu, label := label, emotional_state := emotional_state }

/-! ### Resource catalog (`MENTAL_HEALTH_RESOURCES`) -/

/-- One entry of the static resource catalog; optional fields model the
keys that are present only on some of the Python dictionaries. -/
structure Resource where
  name : String
  phone : Option String
  website : Option String
  description : String
  category : Option String
deriving DecidableEq

/-- The three fixed categories of the catalog. -/
structure ResourceCatalog where
  crisis : List Resource
  general : List Resource
  coping_strategies : List Resource
deriving DecidableEq

/-- `MENTAL_HEALTH_RESOURCES` from `server.py`. -/
def MENTAL_HEALTH_RESOURCES : ResourceCatalog :=
  { crisis :=
      [{ name := "National Suicide Prevention Lifeline", phone := some "988",
         website := none, description := "24/7 crisis support and suicide prevention",
         category := none },
       { name := "Crisis Text Line", phone := some "Text HOME to 741741",
         website := none, description := "24/7 crisis support via text",
         category := none },
       { name := "International Association for Suicide Prevention", phone := none,
         website := some "https://www.iasp.info/resources/Crisis_Centres/",
         description := "Global crisis centers directory", category := none }],
    general :=
      [{ name := "Mental Health America", phone := none,
         website := some "https://www.mhanational.org/finding-help",
         description := "Mental health resources and support", category := none },
       { name := "NAMI (National Alliance on Mental Illness)", phone := none,
         website := some "https://www.nami.org/help",
         description := "Mental health education and support", category := none },
       { name := "Psychology Today Therapist Finder", phone := none,
         website := some "https://www.psychologytoday.com/us/therapists",
         description := "Find therapists and mental health professionals",
         category := none }],
    coping_strategies :=
      [{ name := "Box Breathing", phone := none, website := none,
         description := "Breathe in for 4, hold for 4, out for 4, hold for 4. Repeat 4 times.",
         category := some "anxiety" },
       { name := "5-4-3-2-1 Grounding", phone := none, website := none,
         description := "Name 5 things you see, 4 you can touch, 3 you hear, 2 you smell, 1 you taste.",
         category := some "anxiety" },
       { name := "Progressive Muscle Relaxation", phone := none, website := none,
         description := "Tense and relax each muscle group from toes to head.",
         category := some "stress" },
       { name := "Thought Reframing", phone := none, website := none,
         description := "Challenge negative thoughts by asking: Is this realistic? What would I tell a friend?",
         category := some "depression" }] }

/-! ### Context assembly and generation (`generate_ai_response`) -/

/-- A stored chat message as `generate_ai_response` reads it back from the
store: only `content` and `is_user` are consulted. -/
structure StoredMessage where
  content : String
  is_user : Bool
deriving DecidableEq

/-- One entry of the message list handed to the generation service. -/
structure MsgEntry where
  role : String
  content : String
deriving DecidableEq

/-- The fixed system prompt of `generate_ai_response`. -/
def system_prompt_base : String :=
  "You are a compassionate mental health support chatbot. Your role is to:\n\n1. Provide empathetic, supportive responses\n2. Encourage users to seek professional help when appropriate\n3. Never provide medical diagnoses or specific medical advice\n4. Offer coping strategies and emotional support\n5. Be mindful of crisis situations and respond appropriately\n\nIMPORTANT SAFETY RULES:\n- Always include disclaimers about not being a replacement for professional help\n- For any crisis situations, provide immediate support resources\n- Focus on validation, empathy, and gentle guidance\n- Use warm, supportive language\n- Keep responses concise but meaningful (2-3 sentences typically)\n\nRemember: You are NOT a licensed therapist. You provide peer support and encourage professional help."

/-- The escalation clause appended to the system prompt when a crisis is detected. -/
def crisis_addendum : String :=
  "\n\nIMPORTANT: The user may be in crisis. Prioritize immediate safety and provide crisis resources. Be extra supportive and encourage immediate professional help."

/-- The system prompt actually sent, with the crisis clause appended iff flagged. -/
def system_prompt_for (crisis_detected : Bool) : String :=
  if crisis_detected then system_prompt_base ++ crisis_addendum else system_prompt_base

/-- The fallback reply of `generate_ai_response` when generation fails and a
crisis was detected. -/
def crisis_fallback : String :=
  "I\x27m here to listen and support you. Please reach out to a crisis helpline immediately if you\x27re having thoughts of self-harm. You can call 988 (Suicide Prevention Lifeline) or text HOME to 741741. Your life has value and there are people who want to help."

/-- The fallback reply of `generate_ai_response` when generation fails and no
crisis was detected. -/
def generic_fallback : String :=
  "I\x27m here to support you, though I\x27m having trouble generating a response right now. Remember that it\x27s always okay to reach out to a mental health professional if you need additional support."

/-- The query `db.messages.find({session_id}).sort(timestamp, -1).limit(6)`:
the filter and descending sort are the store's contract, so `history` is the
session's messages exactly as the store returns them (newest first); the
`limit(6)` parameter of the query is the `take 6`. -/
def fetch_recent (history : List StoredMessage) : List StoredMessage :=
  history.take 6

/-- The `context_messages` list built by `generate_ai_response`: the system
prompt, then the fetched history reversed to chronological order with roles
recovered from `is_user`, then the current user message. -/
def build_context (recent_messages : List StoredMessage) (message : String)
    (crisis_detected : Bool) : List MsgEntry :=
  { role := "system", content := system_prompt_for crisis_detected } ::
    (recent_messages.reverse.map
      (fun m => { role := if m.is_user then "user" else "assistant", content := m.content }) ++
     [{ role := "user", content := message }])

/-- `generate_ai_response` from `server.py`, with the generation service
passed in as a fallible function: on success the returned text is stripped,
and any failure is absorbed into one of the two fixed fallback strings
chosen by the crisis flag — never re-raised, never retried. -/
def generate_ai_response (history : List StoredMessage) (message : String)
    (crisis_detected : Bool) (gen : List MsgEntry → Except String String) : String :=
  let context_messages := build_context (fetch_recent history) message crisis_detected
  match gen context_messages with
  | Except.ok text => pyStrip text
  | Except.error _ => if crisis_detected then crisis_fallback else generic_fallback

/-! ### The chat endpoint (`chat`) -/

/-- A chat message record as `chat` inserts it into the store (the generated
`id` and `timestamp` are collaborator concerns and omitted). -/
structure ChatMessage where
  session_id : String
  content : String
  is_user : Bool
  sentiment_score : Option ℚ
  sentiment_label : Option String
  crisis_detected : Bool
deriving DecidableEq

/-- The request body of `POST /api/chat`. -/
structure ChatRequest where
  message : String
  session_id : Option String
deriving DecidableEq

/-- The response body of `POST /api/chat`. -/
structure ChatResponse where
  message : String
  session_id : String
  crisis_detected : Bool
  sentiment : Option SentimentResult
  resources : Option (List Resource)
deriving DecidableEq

/-- The side effects `chat` performs against the collaborators, in program
order: session insert, message inserts, the generation attempt, and the
session-activity update. -/
inductive Event where
  | insertSession (sid : String)
  | insertMessage (m : ChatMessage)
  | genAttempt
  | updateSession (sid : String)
deriving DecidableEq

/-- The collaborator inputs of one chat turn: the fresh uuid used if a
session must be created, the VADER scores of the request message, the
session's stored messages as the store returns them (newest first), and the
generation service. -/
structure ChatEnv where
  new_session_id : String
  vader : PolarityScores
  history : List StoredMessage
  gen : List MsgEntry → Except String String

/-- Python truthiness of `request.session_id` in `if not session_id`:
missing or empty means a new session is created. -/
def sessionIdMissing : Option String → Bool
  | none => true
  | some s => s.isEmpty

/-- The `chat` endpoint of `server.py`: create a session if none was given,
score the message, detect crisis, insert the user message, attempt
generation (with fallback absorbed inside `generate_ai_response`), insert
the AI message, update the session, and answer with the sentiment, the
crisis flag and — iff flagged — the crisis resources.  Returns the ordered
event trace together with the response. -/
def chat (env : ChatEnv) (req : ChatRequest) : List Event × ChatResponse :=
  let create := sessionIdMissing req.session_id
  let session_id := if create then env.new_session_id else req.session_id.getD ""
  let sessionEvents : List Event :=
    if create then [Event.insertSession env.new_session_id] else []
  let sentiment := analyze_sentiment env.vader
  let crisis_detected := detect_crisis req.message
  let user_message : ChatMessage :=
    { session_id := session_id, content := req.message, is_user := true,
      sentiment_score := some sentiment.compound,
      sentiment_label := some sentiment.label,
      crisis_detected := crisis_detected }
  let ai_response := generate_ai_response env.history req.message crisis_detected env.gen
  let ai_message : ChatMessage :=
    { session_id := session_id, content := ai_response, is_user := false,
      sentiment_score := none, sentiment_label := none, crisis_detected := false }
  (sessionEvents ++
     [Event.insertMessage user_message, Event.genAttempt,
      Event.insertMessage ai_message, Event.updateSession session_id],
   { message := ai_response, session_id := session_id,
     crisis_detected := crisis_detected, sentiment := some sentiment,
     resources := if crisis_detected then some MENTAL_HEALTH_RESOURCES.crisis else none })

/-! ### Sentiment trends (`get_sentiment_trends`) -/

/-- A stored user message as the trends query returns it: its UTC calendar
date key (`datetime.fromisoformat(ts).date().isoformat()`) and its stored
compound score. -/
structure TrendMessage where
  date_key : String
  sentiment_score : ℚ
deriving DecidableEq

/-- One element of the `trends` list. -/
structure TrendPoint where
  date : String
  avg_sentiment : ℚ
  message_count : Nat
deriving DecidableEq

/-- The `summary` dictionary; `days_analyzed` is optional because the
empty-input branch of the endpoint builds a summary without that key. -/
structure TrendSummary where
  avg_sentiment : ℚ
  total_messages : Nat
  days_analyzed : Option Nat
deriving DecidableEq

/-- Keys of a `defaultdict` in insertion order: first occurrence of each
date key, in order of first appearance. -/
def firstSeenAux (seen : List String) : List String → List String
  | [] => []
  | d :: t =>
      if seen.contains d then firstSeenAux seen t
      else d :: firstSeenAux (d :: seen) t

/-- `get_sentiment_trends` from `server.py`, starting after the store query:
`messages` is the filtered, timestamp-ascending list the store returns.
Empty input short-circuits to `{trends: [], summary: {avg_sentiment: 0,
total_messages: 0}}`; otherwise messages are bucketed by date key in
first-seen order, each bucket averaged, and the summary carries the overall
mean, the count, and `days_analyzed = days`. -/
def get_sentiment_trends (messages : List TrendMessage) (days : Nat) :
    List TrendPoint × TrendSummary :=
  if messages.isEmpty then
    ([], { avg_sentiment := 0, total_messages := 0, days_analyzed := none })
  else
    let dates := firstSeenAux [] (messages.map (fun m => m.date_key))
    let trends := dates.map (fun d =>
      let scores := (messages.filter (fun m => m.date_key == d)).map
        (fun m => m.sentiment_score)
      { date := d, avg_sentiment := scores.sum / (scores.length : ℚ),
        message_count := scores.length })
    let all_scores := messages.map (fun m => m.sentiment_score)
    (trends,
     { avg_sentiment := all_scores.sum / (all_scores.length : ℚ),
       total_messages := messages.length, days_analyzed := some days })

/-! ### Threshold lemmas for `analyze_sentiment` -/

/-- Label is positive exactly on compound at least 0.05. -/
theorem analyze_label_positive_iff (s : PolarityScores) :
    (analyze_sentiment s).label = "positive" ↔ s.compound ≥ 0.05 := by
  show (if s.compound ≥ 0.05 then "positive"
        else if s.compound ≤ -0.05 then "negative" else "neutral") = "positive" ↔ _
  split_ifs with h1 h2
  · exact iff_of_true rfl h1
  · exact iff_of_false (by decide) h1
  · exact iff_of_false (by decide) h1

/-- Label is negative exactly on compound at most -0.05. -/
theorem analyze_label_negative_iff (s : PolarityScores) :
    (analyze_sentiment s).label = "negative" ↔ s.compound ≤ -0.05 := by
  show (if s.compound ≥ 0.05 then "positive"
        else if s.compound ≤ -0.05 then "negative" else "neutral") = "negative" ↔ _
  split_ifs with h1 h2
  · exact iff_of_false (by decide) (by intro hc; linarith)
  · exact iff_of_true rfl h2
  · exact iff_of_false (by decide) h2

/-- Label is neutral exactly on the open middle band. -/
theorem analyze_label_neutral_iff (s : PolarityScores) :
    (analyze_sentiment s).label = "neutral" ↔ -0.05 < s.compound ∧ s.compound < 0.05 := by
  show (if s.compound ≥ 0.05 then "positive"
        else if s.compound ≤ -0.05 then "negative" else "neutral") = "neutral" ↔ _
  split_ifs with h1 h2
  · exact iff_of_false (by decide) (by rintro ⟨h3, h4⟩; linarith)
  · exact iff_of_false (by decide) (by rintro ⟨h3, h4⟩; linarith)
  · exact iff_of_true rfl ⟨not_le.mp h2, not_le.mp h1⟩

/-- Emotional state is very_negative exactly on compound at most -0.5. -/
theorem analyze_state_very_negative_iff (s : PolarityScores) :
    (analyze_sentiment s).emotional_state = "very_negative" ↔ s.compound ≤ -0.5 := by
  show (if s.compound ≤ -0.5 then "very_negative"
        else if s.compound ≤ -0.2 then "negative"
        else if s.compound ≥ 0.5 then "very_positive"
        else if s.compound ≥ 0.2 then "positive" else "neutral") = "very_negative" ↔ _
  split_ifs with h1 h2 h3 h4
  · exact iff_of_true rfl h1
  · exact iff_of_false (by decide) h1
  · exact iff_of_false (by decide) h1
  · exact iff_of_false (by decide) h1
  · exact iff_of_false (by decide) h1

/-- Emotional state is negative exactly on the half-open band (-0.5, -0.2]. -/
theorem analyze_state_negative_iff (s : PolarityScores) :
    (analyze_sentiment s).emotional_state = "negative" ↔
      -0.5 < s.compound ∧ s.compound ≤ -0.2 := by
  show (if s.compound ≤ -0.5 then "very_negative"
        else if s.compound ≤ -0.2 then "negative"
        else if s.compound ≥ 0.5 then "very_positive"
        else if s.compound ≥ 0.2 then "positive" else "neutral") = "negative" ↔ _
  split_ifs with h1 h2 h3 h4
  · exact iff_of_false (by decide) (by rintro ⟨h3, h4⟩; linarith)
  · exact iff_of_true rfl ⟨not_le.mp h1, h2⟩
  · exact iff_of_false (by decide) (by rintro ⟨h5, h6⟩; exact h2 h6)
  · exact iff_of_false (by decide) (by rintro ⟨h5, h6⟩; exact h2 h6)
  · exact iff_of_false (by decide) (by rintro ⟨h5, h6⟩; exact h2 h6)

/-- Emotional state is very_positive exactly on compound at least 0.5. -/
theorem analyze_state_very_positive_iff (s : PolarityScores) :
    (analyze_sentiment s).emotional_state = "very_positive" ↔ s.compound ≥ 0.5 := by
  show (if s.compound ≤ -0.5 then "very_negative"
        else if s.compound ≤ -0.2 then "negative"
        else if s.compound ≥ 0.5 then "very_positive"
        else if s.compound ≥ 0.2 then "positive" else "neutral") = "very_positive" ↔ _
  split_ifs with h1 h2 h3 h4
  · exact iff_of_false (by decide) (by intro hc; linarith)
  · exact iff_of_false (by decide) (by intro hc; linarith)
  · exact iff_of_true rfl h3
  · exact iff_of_false (by decide) h3
  · exact iff_of_false (by decide) h3

/-- Emotional state is positive exactly on the half-open band [0.2, 0.5). -/
theorem analyze_state_positive_iff (s : PolarityScores) :
    (analyze_sentiment s).emotional_state = "positive" ↔
      0.2 ≤ s.compound ∧ s.compound < 0.5 := by
  show (if s.compound ≤ -0.5 then "very_negative"
        else if s.compound ≤ -0.2 then "negative"
        else if s.compound ≥ 0.5 then "very_positive"
        else if s.compound ≥ 0.2 then "positive" else "neutral") = "positive" ↔ _
  split_ifs with h1 h2 h3 h4
  · exact iff_of_false (by decide) (by rintro ⟨h5, h6⟩; linarith)
  · exact iff_of_false (by decide) (by rintro ⟨h5, h6⟩; linarith)
  · exact iff_of_false (by decide) (by rintro ⟨h5, h6⟩; linarith)
  · exact iff_of_true rfl ⟨h4, not_le.mp h3⟩
  · exact iff_of_false (by decide) (by rintro ⟨h5, h6⟩; exact h4 h5)

/-- Emotional state is neutral exactly on the open middle band (-0.2, 0.2). -/
theorem analyze_state_neutral_iff (s : PolarityScores) :
    (analyze_sentiment s).emotional_state = "neutral" ↔
      -0.2 < s.compound ∧ s.compound < 0.2 := by
  show (if s.compound ≤ -0.5 then "very_negative"
        else if s.compound ≤ -0.2 then "negative"
        else if s.compound ≥ 0.5 then "very_positive"
        else if s.compound ≥ 0.2 then "positive" else "neutral") = "neutral" ↔ _
  split_ifs with h1 h2 h3 h4
  · exact iff_of_false (by decide) (by rintro ⟨h5, h6⟩; linarith)
  · exact iff_of_false (by decide) (by rintro ⟨h5, h6⟩; linarith)
  · exact iff_of_false (by decide) (by rintro ⟨h5, h6⟩; linarith)
  · exact iff_of_false (by decide) (by rintro ⟨h5, h6⟩; linarith)
  · exact iff_of_true rfl ⟨not_le.mp h2, not_le.mp h4⟩

/-! ### Claim theorems -/

/-- Claim C1, counterexample: the claim that `detect_crisis "I want to diet"`
returns false is refuted by the code — it returns true. -/
theorem detect_crisis_diet_not_false :
    ¬ (detect_crisis ("I want to diet") = false) := by decide

/-- Claim C1, amended: `detect_crisis "I want to diet"` returns true — the
keyword stage (naive substring: keyword "want to die") and the phrase stage
(substring: phrase "i want to die") both fire; only the four word-boundary
regex patterns decline to match this text. -/
theorem detect_crisis_diet_true :
    detect_crisis ("I want to diet") = true ∧
    CRISIS_KEYWORDS.any
      (fun keyword => substrInList keyword.data (pyLower ("I want to diet").data)) = true ∧
    CRISIS_PHRASES.any
      (fun phrase => substrInList phrase.data (pyLower ("I want to diet").data)) = true ∧
    crisis_patterns.any
      (fun pat => reSearch (pat.map String.data) (pyLower ("I want to diet").data)) = false := by
  decide

/-- Claim C2: if the generation call on the assembled context fails, the
reply of the turn — both as produced by `generate_ai_response` and as the
`message` field of the chat response — is the fixed crisis fallback string
when the crisis flag is true and the fixed generic fallback string when it
is false; the failure is absorbed, not re-raised. -/
theorem fallback_on_generation_failure (env : ChatEnv) (req : ChatRequest) (e : String)
    (h : env.gen (build_context (fetch_recent env.history) req.message
          (detect_crisis req.message)) = Except.error e) :
    generate_ai_response env.history req.message (detect_crisis req.message) env.gen =
      (if detect_crisis req.message then crisis_fallback else generic_fallback) ∧
    (chat env req).2.message =
      (if detect_crisis req.message then crisis_fallback else generic_fallback) := by
  have hg : generate_ai_response env.history req.message (detect_crisis req.message) env.gen =
      (if detect_crisis req.message then crisis_fallback else generic_fallback) := by
    simp only [generate_ai_response, h]
  exact ⟨hg, hg⟩

/-- Environment with an always-failing generation service, for the C2 witness. -/
def failEnv : ChatEnv :=
  { new_session_id := "session-1",
    vader := { compound := 0, pos := 0, neg := 0, neu := 1 },
    history := [],
    gen := fun _ => Except.error "timeout" }

/-- Claim C2, witness: the fallback theorem applied to a concrete failing
environment and request. -/
theorem fallback_on_generation_failure_witness :
    generate_ai_response failEnv.history ("hello") (detect_crisis ("hello")) failEnv.gen =
      (if detect_crisis ("hello") then crisis_fallback else generic_fallback) ∧
    (chat failEnv { message := "hello", session_id := some "abc" }).2.message =
      (if detect_crisis ("hello") then crisis_fallback else generic_fallback) :=
  fallback_on_generation_failure failEnv { message := "hello", session_id := some "abc" }
    "timeout" rfl

/-- Claim C3: in every chat response, `resources` is exactly the crisis
category of the resource catalog when the crisis flag of the response is
true, and absent when it is false. -/
theorem chat_resources_iff_crisis (env : ChatEnv) (req : ChatRequest) :
    (chat env req).2.resources =
      (if (chat env req).2.crisis_detected = true then some MENTAL_HEALTH_RESOURCES.crisis
       else none) := by
  show (if detect_crisis req.message then some MENTAL_HEALTH_RESOURCES.crisis else none) =
      (if detect_crisis req.message = true then some MENTAL_HEALTH_RESOURCES.crisis else none)
  by_cases h : detect_crisis req.message <;> simp [h]

/-- Claim C4: the event trace of every chat turn inserts the user message —
carrying its sentiment score, sentiment label and crisis flag — strictly
before the generation attempt, and no generation attempt occurs earlier;
this holds for every generation service, hence regardless of generation
outcome. -/
theorem chat_persists_user_message_before_generation (env : ChatEnv) (req : ChatRequest) :
    ∃ pre post um,
      (chat env req).1 = pre ++ Event.insertMessage um :: Event.genAttempt :: post ∧
      Event.genAttempt ∉ pre ∧
      um.is_user = true ∧ um.content = req.message ∧
      um.sentiment_score = some (analyze_sentiment env.vader).compound ∧
      um.sentiment_label = some (analyze_sentiment env.vader).label ∧
      um.crisis_detected = detect_crisis req.message := by
  refine ⟨(if sessionIdMissing req.session_id then [Event.insertSession env.new_session_id]
           else []),
    [Event.insertMessage
       { session_id := (if sessionIdMissing req.session_id then env.new_session_id
                        else req.session_id.getD ""),
         content := generate_ai_response env.history req.message
           (detect_crisis req.message) env.gen,
         is_user := false, sentiment_score := none, sentiment_label := none,
         crisis_detected := false },
     Event.updateSession (if sessionIdMissing req.session_id then env.new_session_id
                          else req.session_id.getD "")],
    { session_id := (if sessionIdMissing req.session_id then env.new_session_id
                     else req.session_id.getD ""),
      content := req.message, is_user := true,
      sentiment_score := some (analyze_sentiment env.vader).compound,
      sentiment_label := some (analyze_sentiment env.vader).label,
      crisis_detected := detect_crisis req.message }, ?_, ?_, rfl, rfl, rfl, rfl, rfl⟩
  · by_cases h : sessionIdMissing req.session_id <;> simp [chat, h]
  · by_cases h : sessionIdMissing req.session_id <;> simp [h]

/-- Claim C5: the sentiment label and emotional state of `analyze_sentiment`
realize exactly the documented thresholds on the compound score. -/
theorem analyze_sentiment_thresholds (s : PolarityScores) :
    ((analyze_sentiment s).label = "positive" ↔ s.compound ≥ 0.05) ∧
    ((analyze_sentiment s).label = "negative" ↔ s.compound ≤ -0.05) ∧
    ((analyze_sentiment s).label = "neutral" ↔ -0.05 < s.compound ∧ s.compound < 0.05) ∧
    ((analyze_sentiment s).emotional_state = "very_negative" ↔ s.compound ≤ -0.5) ∧
    ((analyze_sentiment s).emotional_state = "negative" ↔
      -0.5 < s.compound ∧ s.compound ≤ -0.2) ∧
    ((analyze_sentiment s).emotional_state = "very_positive" ↔ s.compound ≥ 0.5) ∧
    ((analyze_sentiment s).emotional_state = "positive" ↔
      0.2 ≤ s.compound ∧ s.compound < 0.5) ∧
    ((analyze_sentiment s).emotional_state = "neutral" ↔
      -0.2 < s.compound ∧ s.compound < 0.2) :=
  ⟨analyze_label_positive_iff s, analyze_label_negative_iff s, analyze_label_neutral_iff s,
   analyze_state_very_negative_iff s, analyze_state_negative_iff s,
   analyze_state_very_positive_iff s, analyze_state_positive_iff s,
   analyze_state_neutral_iff s⟩

/-- Claim C6: the contents of the context handed to the generator are the
system prompt, then the fetched history reversed from the store's
newest-first order to chronological order, then the current user message
last. -/
theorem build_context_chronological (history : List StoredMessage) (msg : String)
    (cd : Bool) :
    (build_context (fetch_recent history) msg cd).map (fun e => e.content) =
      system_prompt_for cd ::
        (((fetch_recent history).map (fun m => m.content)).reverse ++ [msg]) := by
  simp [build_context, List.map_append, List.map_map, List.map_reverse, Function.comp]

/-- Six stored messages, enough to saturate the history window. -/
def sixMessages : List StoredMessage :=
  [{ content := "m1", is_user := true }, { content := "m2", is_user := false },
   { content := "m3", is_user := true }, { content := "m4", is_user := false },
   { content := "m5", is_user := true }, { content := "m6", is_user := false }]

/-- Claim C7, counterexample: with six stored messages the assembled context
has eight entries, refuting the claimed bound of seven. -/
theorem build_context_eight_entries :
    ¬ ((build_context (fetch_recent sixMessages) ("hi") false).length ≤ 7) := by decide

/-- Claim C7, amended: the assembled context never has more than eight
entries — one system directive, at most six fetched history messages, and
the current user message. -/
theorem build_context_length_le_eight (history : List StoredMessage) (msg : String)
    (cd : Bool) :
    (build_context (fetch_recent history) msg cd).length ≤ 8 := by
  simp only [build_context, fetch_recent, List.length_cons, List.length_append,
    List.length_map, List.length_reverse, List.length_take, List.length_nil]
  omega

/-- Claim C9, counterexample: on empty input the trends endpoint's summary
carries no `days_analyzed` key at all, so it cannot equal the requested
window size. -/
theorem trends_empty_days_counterexample :
    ¬ ((get_sentiment_trends [] 7).1 = [] ∧
       (get_sentiment_trends [] 7).2.avg_sentiment = 0 ∧
       (get_sentiment_trends [] 7).2.total_messages = 0 ∧
       (get_sentiment_trends [] 7).2.days_analyzed = some 7) := by decide

/-- Claim C9, amended: on empty input the trends endpoint returns an empty
trend list and a summary with average sentiment 0 and zero messages, and
the summary omits `days_analyzed` (the field is attached, equal to the
requested window, only for non-empty input). -/
theorem trends_empty_amended (days : Nat) :
    (get_sentiment_trends [] days).1 = [] ∧
    (get_sentiment_trends [] days).2.avg_sentiment = 0 ∧
    (get_sentiment_trends [] days).2.total_messages = 0 ∧
    (get_sentiment_trends [] days).2.days_analyzed = none :=
  ⟨rfl, rfl, rfl, rfl⟩

/-- Claim C10: a chat request without a session id makes `chat` create a
fresh session under the newly generated id, persist both the user message
and the AI message under that id, and return that id in the response. -/
theorem chat_creates_session_when_id_missing (env : ChatEnv) (msg : String) :
    (chat env { message := msg, session_id := none }).2.session_id = env.new_session_id ∧
    Event.insertSession env.new_session_id ∈
      (chat env { message := msg, session_id := none }).1 ∧
    Event.insertMessage
      { session_id := env.new_session_id, content := msg, is_user := true,
        sentiment_score := some (analyze_sentiment env.vader).compound,
        sentiment_label := some (analyze_sentiment env.vader).label,
        crisis_detected := detect_crisis msg } ∈
      (chat env { message := msg, session_id := none }).1 ∧
    Event.insertMessage
      { session_id := env.new_session_id,
        content := generate_ai_response env.history msg (detect_crisis msg) env.gen,
        is_user := false, sentiment_score := none, sentiment_label := none,
        crisis_detected := false } ∈
      (chat env { message := msg, session_id := none }).1 := by
  refine ⟨rfl, ?_, ?_, ?_⟩ <;> simp [chat, sessionIdMissing]

end Server
